import Mathlib

/-!
# Pull-diagnostics pipeline: shallow embedding

A shallow embedding of `src/helix-term/src/handlers/diagnostics.rs`: the
debounce handlers (`PullDiagnosticsHandler`, `PullDiagnosticsForDocumentsHandler`),
the pull orchestration (`pull_diagnostics_for_documents`), and the response
merge (`handle_pull_diagnostics_response`, `add_diagnostic`,
`handle_document_diagnostic_report_kind`).

Editor-owned state is made explicit: an `Editor` carries the list of open
documents and the diagnostics store (an association list from resource
identifier to tagged diagnostics).  Rust's `HashSet`/`HashMap` iterations are
modelled as lists in iteration order; `Option`-returning lookups model the
fallible registry.  Collaborator code that is not part of `src/`
(`Editor::add_diagnostics`, the `doc_mut!` lookup macro, `Uri::try_from`, the
`helix_event::AsyncHook` debounce driver, `serde_json` parsing) is modelled
from the spec, each with a doc comment saying so.
-/

/-- Document identifiers (`helix_view::DocumentId`). -/
abbrev DocumentId := Nat

/-- Language-server identifiers (`helix_lsp::LanguageServerId`). -/
abbrev LanguageServerId := Nat

/-- Raw URLs as they appear in a report's related-documents map (`lsp::Url`). -/
abbrev Url := String

/-- Internal resource identifiers (`helix_core::Uri`). -/
abbrev Uri := String

/-- A single diagnostic (`lsp::Diagnostic`); only its payload matters here. -/
structure Diagnostic where
  message : String
  deriving DecidableEq, Repr

/-- `lsp::FullDocumentDiagnosticReport`: a complete item list plus an optional
result id. -/
structure FullDocumentDiagnosticReport where
  result_id : Option String
  items : List Diagnostic
  deriving DecidableEq, Repr

/-- `lsp::UnchangedDocumentDiagnosticReport`: only a (mandatory) result id. -/
structure UnchangedDocumentDiagnosticReport where
  result_id : String
  deriving DecidableEq, Repr

/-- `lsp::DocumentDiagnosticReportKind`: the nested kind attached to a
related resource. -/
inductive DocumentDiagnosticReportKind where
  | full (report : FullDocumentDiagnosticReport)
  | unchanged (report : UnchangedDocumentDiagnosticReport)
  deriving DecidableEq, Repr

/-- The related-documents map of a report
(`Option<HashMap<lsp::Url, lsp::DocumentDiagnosticReportKind>>`); the hash
map is modelled as an association list in iteration order. -/
abbrev RelatedDocuments := Option (List (Url × DocumentDiagnosticReportKind))

/-- `lsp::RelatedFullDocumentDiagnosticReport`. -/
structure RelatedFullDocumentDiagnosticReport where
  related_documents : RelatedDocuments
  full_document_diagnostic_report : FullDocumentDiagnosticReport
  deriving DecidableEq, Repr

/-- `lsp::RelatedUnchangedDocumentDiagnosticReport`. -/
structure RelatedUnchangedDocumentDiagnosticReport where
  related_documents : RelatedDocuments
  unchanged_document_diagnostic_report : UnchangedDocumentDiagnosticReport
  deriving DecidableEq, Repr

/-- `lsp::DocumentDiagnosticReport`: the primary response variant. -/
inductive DocumentDiagnosticReport where
  | full (report : RelatedFullDocumentDiagnosticReport)
  | unchanged (report : RelatedUnchangedDocumentDiagnosticReport)
  deriving DecidableEq, Repr

/-- A language-server client as the orchestrator sees it: its id, whether it
advertises the pull-diagnostics feature
(`LanguageServerFeature::PullDiagnostics`), and whether
`text_document_diagnostic` returns `Some` future for this document's
identifier (the client returns `None` when the request cannot be built). -/
structure LanguageServer where
  id : LanguageServerId
  supportsPullDiagnostics : Bool
  providesDiagnosticFuture : Bool
  deriving DecidableEq, Repr

/-- An open document: its id, its resource identifier (`doc.uri()`, absent for
scratch buffers), its attached servers in iteration order
(`doc.language_servers()`), and the per-document cache token
`previous_diagnostic_id` that `src/` reads and writes as a single field of the
document. -/
structure Document where
  id : DocumentId
  uri : Option Uri
  servers : List LanguageServer
  previous_diagnostic_id : Option String
  deriving DecidableEq, Repr

/-- The diagnostics store: resource identifier to the list of
(diagnostic, originating server) pairs currently displayed. -/
abbrev DiagnosticsStore := List (Uri × List (Diagnostic × LanguageServerId))

/-- The owner-thread editor state: the open documents and the diagnostics
store. -/
structure Editor where
  documents : List Document
  diagnostics : DiagnosticsStore
  deriving DecidableEq, Repr

/-- Look a document up by id (the registry lookup behind `doc_mut!`); `none`
models a closed/unknown document. -/
def findDoc (e : Editor) (document_id : DocumentId) : Option Document :=
  e.documents.find? (fun d => d.id = document_id)

/-- Rewrite the `previous_diagnostic_id` field of the document with the given
id, leaving every other document and the diagnostics store alone
(`doc.previous_diagnostic_id = ...` in the source). -/
def setToken (e : Editor) (document_id : DocumentId) (t : Option String) : Editor :=
  { e with
    documents := e.documents.map (fun d =>
      if d.id = document_id then { d with previous_diagnostic_id := t } else d) }

/-- The store's entry for a resource ( `[]` when absent). -/
def storeGet (store : DiagnosticsStore) (uri : Uri) : List (Diagnostic × LanguageServerId) :=
  ((store.find? (fun p => p.1 = uri)).map Prod.snd).getD []

/-- Replace (or create) the store's entry for a resource. -/
def storeSet (store : DiagnosticsStore) (uri : Uri)
    (items : List (Diagnostic × LanguageServerId)) : DiagnosticsStore :=
  if store.any (fun p => p.1 = uri) then
    store.map (fun p => if p.1 = uri then (uri, items) else p)
  else
    store ++ [(uri, items)]

/-- Modelled from the spec: `Editor::add_diagnostics` lives in `helix-view`,
which is not part of `src/`.  Per the spec it replaces, within the store entry
for the resource, the diagnostics tagged by the originating server (entries
from other servers remain), and stores the new result id as the token of the
document for that resource.  The spec describes the token per
(document, server), but the document structure exposed to `src/` has a single
per-document field `previous_diagnostic_id` (read at line 149 and written at
line 275 of the source), so that field is what is written. -/
def Editor.add_diagnostics (e : Editor)
    (diagnostics : List (Diagnostic × LanguageServerId))
    (server_id : LanguageServerId) (uri : Uri) (result_id : Option String) : Editor :=
  let kept := (storeGet e.diagnostics uri).filter (fun p => ¬ p.2 = server_id)
  { documents := e.documents.map (fun d =>
      if d.uri = some uri then { d with previous_diagnostic_id := result_id } else d),
    diagnostics := storeSet e.diagnostics uri (kept ++ diagnostics) }

/-- The source's `add_diagnostic` helper (lines 288-299): tag every item with
the originating server and hand the list to `Editor::add_diagnostics`. -/
def add_diagnostic (e : Editor) (uri : Uri) (report : List Diagnostic)
    (result_id : Option String) (server_id : LanguageServerId) : Editor :=
  e.add_diagnostics (report.map (fun d => (d, server_id))) server_id uri result_id

/-- Modelled from the spec: `Uri::try_from(lsp::Url)` lives in `helix-core`,
not in `src/`.  Per the spec the conversion succeeds for a well-formed file
URL and fails for a malformed one; modelled as stripping a `file://` scheme. -/
def uriTryFrom (url : Url) : Option Uri :=
  match url.data with
  | 'f' :: 'i' :: 'l' :: 'e' :: ':' :: '/' :: '/' :: rest => some (String.mk rest)
  | _ => none

/-- The loop body of `handle_document_diagnostic_report_kind` (source lines
307-321) over the related-documents entries in iteration order.  A `Full`
entry whose URL fails to convert executes `return`, which abandons the
remaining entries (not just the failing one).  An `Unchanged` entry looks up
`document_id` — the primary requested document, not the related resource —
and overwrites its token with the entry's result id (the `doc_mut!` lookup is
modelled from the spec as abandoning on failure, see
`handle_pull_diagnostics_response`). -/
def handleKindList (document_id : DocumentId) (server_id : LanguageServerId) :
    Editor → List (Url × DocumentDiagnosticReportKind) → Editor
  | e, [] => e
  | e, (url, .full report) :: rest =>
    match uriTryFrom url with
    | none => e
    | some uri =>
      handleKindList document_id server_id
        (add_diagnostic e uri report.items report.result_id server_id) rest
  | e, (_, .unchanged report) :: rest =>
    match findDoc e document_id with
    | none => e
    | some _ =>
      handleKindList document_id server_id
        (setToken e document_id (some report.result_id)) rest

/-- `handle_document_diagnostic_report_kind` (source lines 301-322):
`report.into_iter().flatten()` over the optional related-documents map. -/
def handle_document_diagnostic_report_kind (e : Editor) (document_id : DocumentId)
    (report : RelatedDocuments) (server_id : LanguageServerId) : Editor :=
  handleKindList document_id server_id e (report.getD [])

/-- `handle_pull_diagnostics_response` (source lines 247-286).  The function
opens with `doc_mut!(editor, document_id)`; `doc_mut!` is a `helix-view`
macro not included in `src/`, modelled from the spec: a lookup that fails
(document closed) degrades to a local no-op and the whole merge for the item
is abandoned.  A `Full` primary report stores its items under the `uri`
argument and then processes related documents; an `Unchanged` primary report
overwrites the document's token with the report's result id and then
processes related documents. -/
def handle_pull_diagnostics_response (e : Editor)
    (response : DocumentDiagnosticReport) (server_id : LanguageServerId)
    (uri : Uri) (document_id : DocumentId) : Editor :=
  match findDoc e document_id with
  | none => e
  | some _ =>
    match response with
    | .full report =>
      handle_document_diagnostic_report_kind
        (add_diagnostic e uri report.full_document_diagnostic_report.items
          report.full_document_diagnostic_report.result_id server_id)
        document_id report.related_documents server_id
    | .unchanged report =>
      handle_document_diagnostic_report_kind
        (setToken e document_id
          (some report.unchanged_document_diagnostic_report.result_id))
        document_id report.related_documents server_id

/-- A request actually issued (a `tokio::spawn`ed task) by the orchestrator:
the captured document id, server id, the token sent with the request
(`doc.previous_diagnostic_id` at issue time), and the resource identifier
captured into the background task (`doc.uri()` at issue time). -/
structure IssuedRequest where
  document_id : DocumentId
  server_id : LanguageServerId
  token : Option String
  uri : Uri
  deriving DecidableEq, Repr

/-- The inner server loop of `pull_diagnostics_for_documents` (source lines
147-187) over one document's capable servers.  Returns the requests issued
and whether the loop executed `return` (which in the source exits the whole
function): `text_document_diagnostic` returning `None`, or `doc.uri()` being
`None`, both `return` rather than `continue`. -/
def pullForServers (doc : Document) : List LanguageServer → List IssuedRequest × Bool
  | [] => ([], false)
  | s :: rest =>
    if ¬ s.providesDiagnosticFuture then ([], true)
    else
      match doc.uri with
      | none => ([], true)
      | some uri =>
        let r := pullForServers doc rest
        (⟨doc.id, s.id, doc.previous_diagnostic_id, uri⟩ :: r.1, r.2)

/-- A document's servers advertising the pull-diagnostics feature
(`doc.language_servers_with_feature(LanguageServerFeature::PullDiagnostics)`). -/
def capableServers (doc : Document) : List LanguageServer :=
  doc.servers.filter (fun s => s.supportsPullDiagnostics)

/-- `pull_diagnostics_for_documents` (source lines 138-189), returning the
requests it spawns.  The `HashSet<DocumentId>` is modelled as the list of ids
in iteration order.  The `doc_mut!` lookup is modelled from the spec (a
failed lookup is a local no-op for that item).  A `return` from the server
loop aborts the whole function: no request is issued for any remaining
document. -/
def pull_diagnostics_for_documents (e : Editor) : List DocumentId → List IssuedRequest
  | [] => []
  | document_id :: rest =>
    match findDoc e document_id with
    | none => pull_diagnostics_for_documents e rest
    | some doc =>
      let r := pullForServers doc (capableServers doc)
      if r.2 then r.1 else r.1 ++ pull_diagnostics_for_documents e rest

/-- Modelled from the spec: `serde_json::from_value` is an external
collaborator.  A raw payload either is a well-formed diagnostic report or is
malformed; parsing succeeds exactly on the former. -/
inductive RawResponse where
  | valid (report : DocumentDiagnosticReport)
  | malformed (payload : String)
  deriving DecidableEq, Repr

/-- `serde_json::from_value::<lsp::DocumentDiagnosticReport>` as consumed at
source lines 164-168: `Ok` becomes `Some`, `Err(_)` becomes `None`. -/
def parseResponse : RawResponse → Option DocumentDiagnosticReport
  | .valid report => some report
  | .malformed _ => none

/-- The closure dispatched to the owner thread for one completed request
(source lines 163-181): parse the raw payload; on parse failure
(`let Some(response) = parsed_response else { return; }`) the merge never
runs; otherwise merge via `handle_pull_diagnostics_response`. -/
def on_response_dispatched (e : Editor) (res : RawResponse)
    (server_id : LanguageServerId) (uri : Uri) (document_id : DocumentId) : Editor :=
  match parseResponse res with
  | none => e
  | some response => handle_pull_diagnostics_response e response server_id uri document_id

/-- The outcome of awaiting one request future (source line 161): either a
raw payload or a transport/protocol error. -/
inductive RequestOutcome where
  | ok (res : RawResponse)
  | err (msg : String)
  deriving DecidableEq, Repr

/-- The spawned background task for one request (source lines 160-186),
returning the editor state after the dispatched merge together with the log
entries the task emits.  On `Ok` the parsed (or discarded) payload is merged
on the owner thread and nothing is logged; on `Err` only
`"Pull diagnostic request failed"` is logged and no merge is dispatched. -/
def spawnedTask (outcome : RequestOutcome) (e : Editor)
    (server_id : LanguageServerId) (uri : Uri) (document_id : DocumentId) :
    Editor × List String :=
  match outcome with
  | .ok res => (on_response_dispatched e res server_id uri document_id, [])
  | .err msg => (e, ["Pull diagnostic request failed: " ++ msg])

/-- `PullDiagnosticsHandler::handle_event` (source lines 100-107): the
accumulator `language_server_ids` is overwritten by the incoming event's ids
(`self.language_server_ids = event.language_server_ids`), and the 120 ms
deadline is re-armed. -/
def PullDiagnosticsHandler.handle_event (_ : List LanguageServerId)
    (event_ids : List LanguageServerId) : List LanguageServerId :=
  event_ids

/-- `PullDiagnosticsHandler::finish_debounce` (source lines 109-115): clone
the accumulated ids and dispatch one pull action with them.  Returns
(dispatched payload, accumulator afterwards): the accumulator is not
cleared. -/
def PullDiagnosticsHandler.finish_debounce (s : List LanguageServerId) :
    List LanguageServerId × List LanguageServerId :=
  (s, s)

/-- `PullDiagnosticsForDocumentsHandler::handle_event` (source lines
120-128): insert the event's document id into the accumulated
`HashSet<DocumentId>` (modelled as a duplicate-free list in insertion order)
and re-arm the 50 ms deadline. -/
def PullDiagnosticsForDocumentsHandler.handle_event (s : List DocumentId)
    (document_id : DocumentId) : List DocumentId :=
  if document_id ∈ s then s else s ++ [document_id]

/-- `PullDiagnosticsForDocumentsHandler::finish_debounce` (source lines
130-135): clone the accumulated document ids and dispatch one pull action
with them.  Returns (dispatched payload, accumulator afterwards): the
accumulator is not cleared. -/
def PullDiagnosticsForDocumentsHandler.finish_debounce (s : List DocumentId) :
    List DocumentId × List DocumentId :=
  (s, s)

/-- The `DocumentDidChange` hook (source lines 39-58): if the document has at
least one server with the pull-diagnostics feature, collect those servers'
ids and send them as one `PullDiagnosticsForLanguageServersEvent`; otherwise
send nothing. -/
def documentDidChangeHook (doc : Document) : Option (List LanguageServerId) :=
  if doc.servers.any (fun s => s.supportsPullDiagnostics) then
    some ((capableServers doc).map (fun s => s.id))
  else
    none

/-- Modelled from the spec: the `helix_event::AsyncHook` debounce driver is
not part of `src/`.  Per the spec, events are processed strictly in arrival
order, each re-arms the deadline, and a burst of events each arriving within
the quiet window of the previous one produces exactly one firing once the
window finally elapses; the fired cycle's payload is the accumulator obtained
by folding `handle_event` over the burst from the initial accumulator `[]`.
Returns the list of fired cycles (one per burst; empty burst fires nothing). -/
def firedCycles (events : List (List LanguageServerId)) : List (List LanguageServerId) :=
  match events with
  | [] => []
  | _ => [events.foldl PullDiagnosticsHandler.handle_event []]

/-! ## Concrete fixtures used by witnesses and counterexamples -/

/-- A server advertising pull diagnostics whose client returns no request
future. -/
def srvNoFuture : LanguageServer := ⟨10, true, false⟩

/-- A healthy pull-capable server with id 10. -/
def srvA : LanguageServer := ⟨10, true, true⟩

/-- A healthy pull-capable server with id 20. -/
def srvB : LanguageServer := ⟨20, true, true⟩

/-- A document with two healthy capable servers and no prior token. -/
def docAB : Document := ⟨1, some "u", [srvA, srvB], none⟩

/-- A document whose first capable server cannot build a request while the
second one could. -/
def docBroken : Document := ⟨1, some "u", [srvNoFuture, srvB], none⟩

/-- Editor opening only `docAB`. -/
def edAB : Editor := ⟨[docAB], []⟩

/-- Editor opening `docBroken` and a second healthy document. -/
def edBroken2 : Editor := ⟨[docBroken, ⟨2, some "v", [srvB], none⟩], []⟩

/-- The primary document of the related-resource fixtures. -/
def docP : Document := ⟨1, some "p", [srvA], none⟩

/-- An open tracked document that appears as a related resource. -/
def docR : Document := ⟨2, some "r", [srvA], none⟩

/-- Editor opening the primary document and the related one. -/
def edPR : Editor := ⟨[docP, docR], []⟩

/-- `docAB` after server 10's token `"a1"` has been stored. -/
def edA1 : Editor := ⟨[⟨1, some "u", [srvA, srvB], some "a1"⟩], []⟩

/-- A document whose path changed after a request captured uri `"u"`. -/
def edMoved : Editor := ⟨[⟨1, some "moved", [srvA], none⟩], []⟩

/-- A diagnostic item carried by the older (stale) response. -/
def dOld : Diagnostic := ⟨"old-item"⟩

/-- A diagnostic item carried by the newer response. -/
def dNew : Diagnostic := ⟨"new-item"⟩

/-- The document-change fixture before its server set changed. -/
def docV1 : Document := ⟨1, some "u", [⟨10, true, true⟩], none⟩

/-- The same document after its capable server changed from 10 to 20. -/
def docV2 : Document := ⟨1, some "u", [⟨20, true, true⟩], none⟩

/-! ## Helper lemmas -/

/-- Every request issued by the inner server loop carries the looping
document's id, its current shared token, and its uri as of issue time. -/
theorem mem_pullForServers (doc : Document) (ss : List LanguageServer)
    (r : IssuedRequest) (hr : r ∈ (pullForServers doc ss).1) :
    r.document_id = doc.id ∧ r.token = doc.previous_diagnostic_id ∧
      doc.uri = some r.uri := by
  induction ss with
  | nil => simp [pullForServers] at hr
  | cons s rest ih =>
    by_cases hf : s.providesDiagnosticFuture
    · cases hu : doc.uri with
      | none => simp [pullForServers, hf, hu] at hr
      | some u =>
        simp only [pullForServers, hf, hu, not_true, if_false, ite_false,
          Bool.not_eq_true, List.mem_cons] at hr
        rcases hr with h | h
        · subst h
          exact ⟨rfl, rfl, rfl⟩
        · exact ⟨(ih h).1, (ih h).2.1, by rw [← hu]; exact (ih h).2.2⟩
    · simp [pullForServers, hf] at hr

/-- Every request issued by a pull cycle belongs to a document that is open
at issue time, and carries that document's token and uri of issue time. -/
theorem mem_pull_diagnostics_for_documents (e : Editor) (ids : List DocumentId)
    (r : IssuedRequest) (hr : r ∈ pull_diagnostics_for_documents e ids) :
    ∃ doc, findDoc e r.document_id = some doc ∧
      r.token = doc.previous_diagnostic_id ∧ doc.uri = some r.uri := by
  induction ids with
  | nil => simp [pull_diagnostics_for_documents] at hr
  | cons did rest ih =>
    rw [pull_diagnostics_for_documents] at hr
    cases hd : findDoc e did with
    | none =>
      rw [hd] at hr
      exact ih hr
    | some doc =>
      rw [hd] at hr
      have hr' : r ∈ (if (pullForServers doc (capableServers doc)).2 = true
          then (pullForServers doc (capableServers doc)).1
          else (pullForServers doc (capableServers doc)).1
            ++ pull_diagnostics_for_documents e rest) := hr
      have hid : doc.id = did := by
        have := List.find?_some hd
        simpa using this
      have hdoc : ∀ s ∈ (pullForServers doc (capableServers doc)).1,
          ∃ d, findDoc e s.document_id = some d ∧
            s.token = d.previous_diagnostic_id ∧ d.uri = some s.uri := by
        intro s hs
        obtain ⟨h1, h2, h3⟩ := mem_pullForServers doc _ s hs
        refine ⟨doc, ?_, h2, h3⟩
        rw [h1, hid]
        exact hd
      by_cases hab : (pullForServers doc (capableServers doc)).2 = true
      · rw [if_pos hab] at hr'
        exact hdoc r hr'
      · rw [if_neg hab] at hr'
        rcases List.mem_append.mp hr' with h | h
        · exact hdoc r h
        · exact ih h

/-- Folding the replace-style `handle_event` of `PullDiagnosticsHandler`
over a nonempty burst yields the last event's payload. -/
theorem foldl_handle_event_eq_getLast (l : List (List LanguageServerId))
    (h : l ≠ []) (init : List LanguageServerId) :
    l.foldl PullDiagnosticsHandler.handle_event init = l.getLast h := by
  induction l generalizing init with
  | nil => exact absurd rfl h
  | cons a t ih =>
    cases t with
    | nil => rfl
    | cons b t' =>
      rw [List.foldl_cons, ih (by simp)]
      exact (List.getLast_cons (by simp)).symm

/-! ## Claim theorems -/

/-- Claim C1, counterexample: in `edBroken2` the first capable server of
document 1 returns no request future; the source executes `return`, which
abandons the whole cycle, so no request at all is issued — in particular none
for the healthy sibling server 20 of the same document and none for the
healthy sibling document 2, although both could have been pulled.  This
refutes the claim that only the failing item is abandoned. -/
theorem C1_counterexample :
    pull_diagnostics_for_documents edBroken2 [1, 2] = [] ∧
    srvB.supportsPullDiagnostics = true ∧ srvB.providesDiagnosticFuture = true ∧
    docBroken.uri = some "u" ∧
    findDoc edBroken2 2 = some ⟨2, some "v", [srvB], none⟩ := by decide

/-- Claim C1 (amended): a failure to build a request for one
(document, server) item (no request future, or the document has no uri)
abandons the remainder of the whole cycle, not just that item: the cycle's
output is exactly what had been issued up to the failure, and later sibling
documents contribute nothing.  Likewise, a related-resource entry whose URL
does not convert abandons all remaining related-resource entries of that
report. -/
theorem C1_request_failure_abandons_rest_of_cycle (e : Editor)
    (document_id : DocumentId) (rest : List DocumentId) (doc : Document)
    (hdoc : findDoc e document_id = some doc)
    (habort : (pullForServers doc (capableServers doc)).2 = true) :
    pull_diagnostics_for_documents e (document_id :: rest)
      = pull_diagnostics_for_documents e [document_id] ∧
    (∀ (e' : Editor) (url : Url) (fr : FullDocumentDiagnosticReport)
        (restEntries : List (Url × DocumentDiagnosticReportKind))
        (sid : LanguageServerId),
      uriTryFrom url = none →
      handleKindList document_id sid e' ((url, .full fr) :: restEntries) = e') := by
  constructor
  · simp [pull_diagnostics_for_documents, hdoc, habort]
  · intro e' url fr restEntries sid hurl
    simp [handleKindList, hurl]

/-- Claim C1, witness for the amended theorem at a concrete cycle. -/
theorem C1_witness :
    pull_diagnostics_for_documents edBroken2 [1, 2]
        = pull_diagnostics_for_documents edBroken2 [1] ∧
    handleKindList 1 10 edAB [("broken-url", .full ⟨none, []⟩)] = edAB := by
  have h := C1_request_failure_abandons_rest_of_cycle edBroken2 1 [2] docBroken
    (by decide) (by decide)
  exact ⟨h.1, h.2 edAB "broken-url" ⟨none, []⟩ [] 10 (by decide)⟩

/-- Claim C2: a merge dispatched for a document that was closed between
request issue and response arrival is a complete no-op — the owner-thread
lookup fails and the editor state (documents, tokens, diagnostics store) is
returned untouched, for every possible response. -/
theorem C2_closed_document_merge_is_noop (e : Editor)
    (response : DocumentDiagnosticReport) (server_id : LanguageServerId)
    (uri : Uri) (document_id : DocumentId)
    (h : findDoc e document_id = none) :
    handle_pull_diagnostics_response e response server_id uri document_id = e := by
  simp [handle_pull_diagnostics_response, h]

/-- Claim C2, witness: the no-op merge at a concrete closed document. -/
theorem C2_witness :
    handle_pull_diagnostics_response ⟨[], []⟩
        (.unchanged ⟨none, ⟨"x"⟩⟩) 10 "u" 1 = ⟨[], []⟩ :=
  C2_closed_document_merge_is_noop ⟨[], []⟩ (.unchanged ⟨none, ⟨"x"⟩⟩) 10 "u" 1 (by decide)

/-- Claim C3, counterexample: document 2 is an open tracked document whose
uri `"r"` is exactly what the related-resource URL `"file://r"` converts to,
and the report carries an `Unchanged` related entry for it with result id
`"rid"`; yet after the merge document 2's token is still `none`, while the
token of document 1 — the primary requested document — has been overwritten
with `"rid"`.  This refutes the claim that the related resource's own
document's token is updated when it is open and tracked. -/
theorem C3_counterexample :
    uriTryFrom "file://r" = some "r" ∧ docR.uri = some "r" ∧
    findDoc edPR 2 = some docR ∧ docR.previous_diagnostic_id = none ∧
    (findDoc (handle_pull_diagnostics_response edPR
        (.unchanged ⟨some [("file://r", .unchanged ⟨"rid"⟩)], ⟨"pid"⟩⟩) 10 "p" 1) 2).map
      (fun d => d.previous_diagnostic_id) = some none ∧
    (findDoc (handle_pull_diagnostics_response edPR
        (.unchanged ⟨some [("file://r", .unchanged ⟨"rid"⟩)], ⟨"pid"⟩⟩) 10 "p" 1) 1).map
      (fun d => d.previous_diagnostic_id) = some (some "rid") := by decide

/-- Claim C3 (amended): a related-resource entry of kind `Unchanged` never
touches the related resource's own document; instead it unconditionally
overwrites the token of the primary requested document with the entry's
result id — regardless of the entry's URL and of whether the related
resource is an open tracked document. -/
theorem C3_unchanged_related_entry_updates_primary_token (e : Editor)
    (document_id : DocumentId) (url : Url) (rid : String)
    (server_id : LanguageServerId) (doc : Document)
    (h : findDoc e document_id = some doc) :
    handle_document_diagnostic_report_kind e document_id
        (some [(url, .unchanged ⟨rid⟩)]) server_id
      = setToken e document_id (some rid) := by
  simp [handle_document_diagnostic_report_kind, handleKindList, h]

/-- Claim C3, witness for the amended theorem at a concrete merge. -/
theorem C3_witness :
    handle_document_diagnostic_report_kind edPR 1
        (some [("file://r", .unchanged ⟨"rid"⟩)]) 10
      = setToken edPR 1 (some "rid") :=
  C3_unchanged_related_entry_updates_primary_token edPR 1 "file://r" "rid" 10 docP (by decide)

/-- Claim C4, counterexample: after the document handler's quiet window
fires on accumulator `[1]`, the accumulator is still `[1]` (not reset to
empty), and document id 1 — a key of the already-fired cycle — appears again
in the next fired cycle. -/
theorem C4_counterexample :
    (PullDiagnosticsForDocumentsHandler.finish_debounce [1]).2 = [1] ∧
    ([1] : List DocumentId) ≠ [] ∧
    1 ∈ (PullDiagnosticsForDocumentsHandler.finish_debounce
      (PullDiagnosticsForDocumentsHandler.handle_event
        (PullDiagnosticsForDocumentsHandler.finish_debounce [1]).2 2)).1 := by decide

/-- Claim C4 (amended): when the quiet window elapses, each engine invokes
its finishing action exactly once with the accumulated keys, but the
accumulator is left unchanged rather than cleared: the document handler's
pending set persists into every later cycle, and the server handler's
pending list persists until the next event overwrites it. -/
theorem C4_finish_dispatches_accumulator_without_clearing :
    (∀ s : List LanguageServerId, PullDiagnosticsHandler.finish_debounce s = (s, s)) ∧
    (∀ s : List DocumentId, PullDiagnosticsForDocumentsHandler.finish_debounce s = (s, s)) :=
  ⟨fun _ => rfl, fun _ => rfl⟩

/-- Claim C5, counterexample: document 1 has two servers, 10 and 20.  An
`Unchanged` response from server 10 stores token `"a1"` into the document's
single `previous_diagnostic_id` field, and the next pull cycle sends that
very token with the request for server 20 — a token produced by one server
is read as and sent with a request for the other. -/
theorem C5_counterexample :
    handle_pull_diagnostics_response edAB (.unchanged ⟨none, ⟨"a1"⟩⟩) 10 "u" 1 = edA1 ∧
    pull_diagnostics_for_documents edA1 [1]
      = [⟨1, 10, some "a1", "u"⟩, ⟨1, 20, some "a1", "u"⟩] ∧
    srvA.id = 10 ∧ srvB.id = 20 := by decide

/-- Claim C5 (amended): the token is maintained per document, not per
(document, server): every request issued by a pull cycle carries the single
shared `previous_diagnostic_id` field of its document, whatever server the
request is for. -/
theorem C5_token_is_shared_per_document (e : Editor) (ids : List DocumentId)
    (r : IssuedRequest) (hr : r ∈ pull_diagnostics_for_documents e ids) :
    (findDoc e r.document_id).map (fun d => d.previous_diagnostic_id) = some r.token := by
  obtain ⟨doc, h1, h2, _⟩ := mem_pull_diagnostics_for_documents e ids r hr
  rw [h1, h2]
  rfl

/-- Claim C5, witness: the request for server 20 in `edA1` carries the
shared token. -/
theorem C5_witness :
    (findDoc edA1 1).map (fun d => d.previous_diagnostic_id) = some (some "a1") :=
  C5_token_is_shared_per_document edA1 [1] ⟨1, 20, some "a1", "u"⟩ (by decide)

/-- Claim C6, counterexample: a primary `Unchanged` report with result id
`"new"` that carries an `Unchanged` related entry with result id `"rel"`
leaves the document's final token at `"rel"`, not at the report's result id
`"new"` — so replacing the token with the report's result id is not the only
mutation performed on the requested resource's document. -/
theorem C6_counterexample :
    (findDoc (handle_pull_diagnostics_response edAB
        (.unchanged ⟨some [("file://other", .unchanged ⟨"rel"⟩)], ⟨"new"⟩⟩) 10 "u" 1) 1).map
      (fun d => d.previous_diagnostic_id) = some (some "rel") ∧
    ¬ ("rel" = "new") := by decide

/-- Claim C6 (amended): for a merge of a primary `Unchanged` report that
carries no related-document entries, the diagnostics store — in particular
the entry for the requested resource — is left bit-for-bit unchanged, and
the only mutation is replacing the requested document's stored token with
the report's result id.  (When related entries are present, an `Unchanged`
related entry subsequently overwrites that token with its own result id.) -/
theorem C6_unchanged_primary_only_updates_token (e : Editor) (rid : String)
    (server_id : LanguageServerId) (uri : Uri) (document_id : DocumentId)
    (doc : Document) (h : findDoc e document_id = some doc) :
    handle_pull_diagnostics_response e (.unchanged ⟨none, ⟨rid⟩⟩) server_id uri document_id
      = setToken e document_id (some rid) ∧
    (handle_pull_diagnostics_response e
        (.unchanged ⟨none, ⟨rid⟩⟩) server_id uri document_id).diagnostics
      = e.diagnostics := by
  have h1 : handle_pull_diagnostics_response e
      (.unchanged ⟨none, ⟨rid⟩⟩) server_id uri document_id
      = setToken e document_id (some rid) := by
    simp [handle_pull_diagnostics_response, h, handle_document_diagnostic_report_kind,
      handleKindList]
  exact ⟨h1, by rw [h1]; rfl⟩

/-- Claim C6, witness at a concrete `Unchanged` merge. -/
theorem C6_witness :
    handle_pull_diagnostics_response edAB (.unchanged ⟨none, ⟨"t"⟩⟩) 10 "u" 1
      = setToken edAB 1 (some "t") ∧
    (handle_pull_diagnostics_response edAB (.unchanged ⟨none, ⟨"t"⟩⟩) 10 "u" 1).diagnostics
      = edAB.diagnostics :=
  C6_unchanged_primary_only_updates_token edAB "t" 10 "u" 1 docAB (by decide)

/-- Claim C7, counterexample: two change events for the same document (id 1)
inside one quiet window, whose collected capable-server sets are `[10]` and
then `[20]` (the document's server set changed between the events).  The
fired cycle references `[20]` — the last event's ids — not the union
`[10, 20]`: server 10 is missing from the fired cycle. -/
theorem C7_counterexample :
    documentDidChangeHook docV1 = some [10] ∧
    documentDidChangeHook docV2 = some [20] ∧
    docV1.id = docV2.id ∧
    firedCycles [[10], [20]] = [[20]] ∧
    (10 : LanguageServerId) ∈ [10, 20] ∧ (10 : LanguageServerId) ∉ [20] := by decide

/-- Claim C7 (amended): for every burst of document-change events arriving
within the quiet window of each other, exactly one pull cycle fires, and the
fired cycle references the server ids collected at the last event —
`handle_event` overwrites the pending list rather than unioning it (the two
coincide only when every event collects the same server set). -/
theorem C7_burst_fires_once_with_last_event (events : List (List LanguageServerId))
    (h : events ≠ []) :
    firedCycles events = [events.getLast h] := by
  cases events with
  | nil => exact absurd rfl h
  | cons a t =>
    show [List.foldl PullDiagnosticsHandler.handle_event [] (a :: t)] = _
    rw [foldl_handle_event_eq_getLast (a :: t) h]

/-- Claim C7, witness at a concrete burst of three events. -/
theorem C7_witness : firedCycles [[1], [2], [3]] = [[3]] :=
  C7_burst_fires_once_with_last_event [[1], [2], [3]] (by decide)

/-- Claim C8, counterexample: a malformed payload arriving as a successful
transport result leaves the editor untouched and produces an empty log — the
parse failure does not surface as a log entry (the source's
`Err(_) => None` discards it silently; only transport errors are logged). -/
theorem C8_counterexample :
    spawnedTask (.ok (.malformed "junk")) edAB 10 "u" 1 = (edAB, []) := by decide

/-- Claim C8 (amended): for every response payload that fails to parse, the
merge step never runs and no editor state changes, and nothing is logged
either: the parse failure is discarded silently (in contrast, a transport
failure produces a log entry and no merge). -/
theorem C8_parse_failure_is_silent_noop (e : Editor) (payload : String)
    (server_id : LanguageServerId) (uri : Uri) (document_id : DocumentId) :
    spawnedTask (.ok (.malformed payload)) e server_id uri document_id = (e, []) := rfl

/-- Claim C9: the merge applies a report's token and items unconditionally —
there is no generation or staleness guard.  Concretely: for the same
(document 1, server 10), merging the newer cycle's `Full` response (items
`[dNew]`, token `"new"`) first and the older cycle's `Full` response (items
`[dOld]`, token `"old"`) second leaves the stale token `"old"` and the stale
item list `[dOld]` as the final state. -/
theorem C9_stale_merge_overwrites_fresh :
    handle_pull_diagnostics_response
        (handle_pull_diagnostics_response edAB
          (.full ⟨none, ⟨some "new", [dNew]⟩⟩) 10 "u" 1)
        (.full ⟨none, ⟨some "old", [dOld]⟩⟩) 10 "u" 1
      = ⟨[⟨1, some "u", [srvA, srvB], some "old"⟩], [("u", [(dOld, 10)])]⟩ := by decide

/-- Claim C10: (1) every request issued by a pull cycle captures the uri the
document resolved to at issue time; (2) the merge of a primary `Full` report
stores the items under the uri argument captured into the background task,
with no re-resolution — whatever uri the document has by merge time, the
store is written at the captured uri. -/
theorem C10_uri_captured_at_issue_time :
    (∀ (e : Editor) (ids : List DocumentId) (r : IssuedRequest),
        r ∈ pull_diagnostics_for_documents e ids →
        (findDoc e r.document_id).map (fun d => d.uri) = some (some r.uri)) ∧
    (∀ (e : Editor) (items : List Diagnostic) (rid : Option String)
        (server_id : LanguageServerId) (u : Uri) (document_id : DocumentId)
        (doc : Document), findDoc e document_id = some doc →
        (handle_pull_diagnostics_response e
            (.full ⟨none, ⟨rid, items⟩⟩) server_id u document_id).diagnostics
          = storeSet e.diagnostics u
              (((storeGet e.diagnostics u).filter (fun p => ¬ p.2 = server_id))
                ++ items.map (fun d => (d, server_id)))) := by
  constructor
  · intro e ids r hr
    obtain ⟨doc, h1, _, h3⟩ := mem_pull_diagnostics_for_documents e ids r hr
    rw [h1]
    simp [h3]
  · intro e items rid server_id u document_id doc h
    simp [handle_pull_diagnostics_response, h, handle_document_diagnostic_report_kind,
      handleKindList, add_diagnostic, Editor.add_diagnostics]

/-- Claim C10, witness: a concrete issued request carrying the issue-time
uri, and a concrete merge for a document whose uri changed to `"moved"`
after the request captured `"u"` — the items are stored under `"u"`. -/
theorem C10_witness :
    (findDoc edAB (1 : DocumentId)).map (fun d => d.uri) = some (some "u") ∧
    (handle_pull_diagnostics_response edMoved
        (.full ⟨none, ⟨some "t", [dNew]⟩⟩) 10 "u" 1).diagnostics
      = storeSet edMoved.diagnostics "u"
          (((storeGet edMoved.diagnostics "u").filter (fun p => ¬ p.2 = 10))
            ++ [dNew].map (fun d => (d, 10))) :=
  ⟨C10_uri_captured_at_issue_time.1 edAB [1] ⟨1, 10, none, "u"⟩ (by decide),
   C10_uri_captured_at_issue_time.2 edMoved [dNew] (some "t") 10 "u" 1
     ⟨1, some "moved", [srvA], none⟩ (by decide)⟩
